import Mathlib

/-!
Verification of the article-identifier normalization and extraction engine of
the consulta-leyes-chile service (`main.py`).

The shallow embedding below translates the pure core of `main.py` into Lean:

* `normalizar_numero_articulo`  (main.py, lines 93-162)
* `limpiar_texto`               (main.py, lines 85-91)
* `extraer_referencias_legales` (main.py, lines 165-167)
* `extraer_articulos`           (main.py, lines 260-335), over an already
  parsed list of article nodes (the result of the `findall` over
  `EstructuraFuncional[@tipoParte="Artículo"]` elements)
* `buscar_articulo_avanzado`    (main.py, lines 338-393); Python's in-place
  mutation of `nota_busqueda` is modelled by returning the post-call state of
  the input list next to the result, and `raise HTTPException(404, detalle)`
  is modelled with `Except`.

Python strings are modelled as `List Char`.  `str.lower`, `\w` and `\s` are
modelled on ASCII plus the Latin-1 range (which covers every character the
program's tables and patterns use); `str.isdigit` and `\d` are modelled on
ASCII digits.  Regular expressions are hand-compiled to functions following
Python's leftmost, ordered-alternative, greedy-with-backtracking semantics;
each such function documents the pattern it implements.
-/

/-! ## Character classes (Python `str.lower`, `\w`, `\s`, `\d`) -/

/-- Python `str.lower` restricted to ASCII and Latin-1 (covers á é í ó ú ñ,
the only non-ASCII letters used by the program). -/
def minusculaPy (c : Char) : Char :=
  if 'A' ≤ c ∧ c ≤ 'Z' then Char.ofNat (c.toNat + 32)
  else if 0xC0 ≤ c.toNat ∧ c.toNat ≤ 0xDE ∧ c.toNat ≠ 0xD7 then Char.ofNat (c.toNat + 32)
  else c

/-- Python regex `\w` (unicode word character) restricted to ASCII plus
Latin-1 letters; includes `_`, digits, `ª` (0xAA), `º` (0xBA), `µ` (0xB5). -/
def esCaracterPalabra (c : Char) : Bool :=
  decide (('a' ≤ c ∧ c ≤ 'z') ∨ ('A' ≤ c ∧ c ≤ 'Z') ∨ ('0' ≤ c ∧ c ≤ '9') ∨ c = '_' ∨
    (0xC0 ≤ c.toNat ∧ c.toNat ≤ 0xFF ∧ c.toNat ≠ 0xD7 ∧ c.toNat ≠ 0xF7) ∨
    c.toNat = 0xAA ∨ c.toNat = 0xBA ∨ c.toNat = 0xB5)

/-- Python regex `\s` / `str.strip` whitespace (ASCII part). -/
def esEspacioPy (c : Char) : Bool :=
  decide (c.toNat = 32 ∨ c.toNat = 9 ∨ c.toNat = 10 ∨ c.toNat = 13 ∨
    c.toNat = 11 ∨ c.toNat = 12)

/-- Python regex `\d` / `str.isdigit` (ASCII digits). -/
def esDigitoPy (c : Char) : Bool := decide ('0' ≤ c ∧ c ≤ '9')

/-- ASCII letter, the character class `[a-zA-Z]`. -/
def esAlfaAscii (c : Char) : Bool :=
  decide (('a' ≤ c ∧ c ≤ 'z') ∨ ('A' ≤ c ∧ c ≤ 'Z'))

/-! ## String utilities -/

/-- Python `str.strip()` (no argument): remove whitespace on both ends. -/
def pyStrip (s : List Char) : List Char :=
  ((s.dropWhile esEspacioPy).reverse.dropWhile esEspacioPy).reverse

/-- Python `str.rstrip(chars)`: remove the characters of `cjto` on the right. -/
def rstripLista (cjto : List Char) (s : List Char) : List Char :=
  (s.reverse.dropWhile (fun c => cjto.contains c)).reverse

/-- Python `str.strip(chars)`: remove the characters of `cjto` on both ends.
With `cjto = []` it removes nothing, like Python's `strip("")`. -/
def stripLista (cjto : List Char) (s : List Char) : List Char :=
  rstripLista cjto (s.dropWhile (fun c => cjto.contains c))

/-- Python `str.isdigit()`: nonempty and all digits. -/
def pyEsDigito (s : List Char) : Bool := !s.isEmpty && s.all esDigitoPy

/-- If `pat` is an initial segment of `s`, return the rest of `s`. -/
def coincideEn (pat : List Char) (s : List Char) : Option (List Char) :=
  match pat, s with
  | [], resto => some resto
  | p :: ps, c :: cs => if c = p then coincideEn ps cs else none
  | _ :: _, [] => none

/-- Case-insensitive variant of `coincideEn` (pattern given in lowercase);
returns the consumed original characters and the rest. -/
def quitaCI (pat : List Char) (s : List Char) : Option (List Char × List Char) :=
  match pat, s with
  | [], resto => some ([], resto)
  | p :: ps, c :: cs =>
    if minusculaPy c = p then
      match quitaCI ps cs with
      | some (con, resto) => some (c :: con, resto)
      | none => none
    else none
  | _ :: _, [] => none

/-- Python `str.replace(old, "", 1)`: delete the first occurrence of `old`.
With `old = []` the string is unchanged (Python inserts the empty string). -/
def reemplazaPrimera (s old : List Char) : List Char :=
  if old.isEmpty then s else quitarAux s
where
  quitarAux : List Char → List Char
  | [] => []
  | c :: cs =>
    match coincideEn old (c :: cs) with
    | some resto => resto
    | none => c :: quitarAux cs

/-- Python `x in s` substring test. -/
def esSubcadena (pat : List Char) : List Char → Bool
  | [] => pat.isEmpty
  | c :: cs => (coincideEn pat (c :: cs)).isSome || esSubcadena pat cs

/-- Python `list(set(xs))`, fuel-based recursion (the fuel `xs.length` always
suffices since `filter` never lengthens a list).  CPython iterates a set in
hash order; we model it as first-occurrence order.  All properties we state
about results built with it are membership-based, hence order-independent. -/
def conjuntoListaFuel : Nat → List String → List String
  | 0, _ => []
  | _, [] => []
  | f + 1, x :: xs => x :: conjuntoListaFuel f (xs.filter (fun y => !(y == x)))

def conjuntoLista (xs : List String) : List String := conjuntoListaFuel xs.length xs

/-! ## The lookup tables (main.py, lines 45-55)

`ROMAN_TO_INT` is copied exactly as written in the source: note that the
source maps `'xiv'` to `15` and has no entry for `'xv'` at all. -/

def ROMAN_TO_INT : List (String × Nat) :=
  [("i", 1), ("ii", 2), ("iii", 3), ("iv", 4), ("v", 5), ("vi", 6), ("vii", 7),
   ("viii", 8), ("ix", 9), ("x", 10),
   ("xi", 11), ("xii", 12), ("xiii", 13), ("xiv", 15), ("xvi", 16),
   ("xvii", 17), ("xviii", 18), ("xix", 19), ("xx", 20)]

def WORDS_TO_INT : List (String × String) :=
  [("primero", "1"), ("segundo", "2"), ("tercero", "3"), ("cuarto", "4"), ("quinto", "5"),
   ("sexto", "6"), ("séptimo", "7"), ("octavo", "8"), ("noveno", "9"), ("décimo", "10"),
   ("undécimo", "11"), ("duodécimo", "12"), ("decimotercero", "13"), ("decimocuarto", "14"),
   ("decimoquinto", "15"),
   ("vigésimo", "20"), ("trigésimo", "30"), ("cuadragésimo", "40"), ("quincuagésimo", "50"),
   ("único", "unico"), ("unico", "unico"), ("final", "final")]

/-! ## The identifier normalizer (main.py, lines 93-162) -/

/-- The leading-label stripper, `re.sub` of the anchored pattern
`^(artículo|articulo|art\.?|nro\.?|n[º°]|disposición|disp\.?)\s*` (line 99).
The input is already lowercased, so `IGNORECASE` is moot.  Alternatives are
tried in the pattern's order; the trailing `\s*` is consumed greedily. -/
def stripPrefijoArt (s : List Char) : List Char :=
  let quitaEsp := fun (r : List Char) => r.dropWhile esEspacioPy
  let quitaPunto := fun (r : List Char) =>
    match r with
    | '.' :: r1 => r1
    | _ => r
  match coincideEn "artículo".data s with
  | some r => quitaEsp r
  | none =>
  match coincideEn "articulo".data s with
  | some r => quitaEsp r
  | none =>
  match coincideEn "art".data s with
  | some r => quitaEsp (quitaPunto r)
  | none =>
  match coincideEn "nro".data s with
  | some r => quitaEsp (quitaPunto r)
  | none =>
  match s with
  | 'n' :: c :: r =>
    if c = 'º' ∨ c = '°' then quitaEsp r
    else
      match coincideEn "disposición".data s with
      | some r2 => quitaEsp r2
      | none =>
      match coincideEn "disp".data s with
      | some r2 => quitaEsp (quitaPunto r2)
      | none => s
  | _ =>
    match coincideEn "disposición".data s with
    | some r2 => quitaEsp r2
    | none =>
    match coincideEn "disp".data s with
    | some r2 => quitaEsp (quitaPunto r2)
    | none => s

/-- `re.match(r"^(transitorio|trans\.?|t)\s*(.*)", s)` (line 110): if the
string starts with one of the alternatives (tried in order), return group 2:
the text after the token and the following whitespace, up to the next newline
(`.` does not match `\n`; the pattern matches a prefix only). -/
def matchTransitorio (s : List Char) : Option (List Char) :=
  let grupoDos := fun (r : List Char) =>
    (r.dropWhile esEspacioPy).takeWhile (fun c => c ≠ '\n')
  match coincideEn "transitorio".data s with
  | some r => some (grupoDos r)
  | none =>
  match coincideEn "trans".data s with
  | some r =>
    some (grupoDos (match r with
      | '.' :: r1 => r1
      | _ => r))
  | none =>
  match s with
  | 't' :: r => some (grupoDos r)
  | _ => none

/-- One whole-word substitution pass: `re.sub(r"\b<pat>\b", rep, s)` for a
word `pat` (lines 118-120).  `prev` is the character just before `s` in the
original string (for the left `\b`); after a replacement, scanning resumes
after the match and the left context is the last character of `pat`. -/
def subWordFuel : Nat → Option Char → List Char → List Char → List Char → List Char
  | 0, _, _, _, s => s
  | f + 1, prev, pat, rep, s =>
    match s with
    | [] => []
    | c :: cs =>
      let okIzq := match prev with
        | none => true
        | some p => !esCaracterPalabra p
      match (if okIzq then coincideEn pat (c :: cs) else none) with
      | some resto =>
        let okDer := match resto with
          | [] => true
          | d :: _ => !esCaracterPalabra d
        if okDer then rep ++ subWordFuel f pat.getLast? pat rep resto
        else c :: subWordFuel f (some c) pat rep cs
      | none => c :: subWordFuel f (some c) pat rep cs

/-- `re.sub(r"\b<pat>\b", rep, s)` replacing every bounded occurrence
left-to-right (the source guards it with an `re.search`, which does not
change the result). -/
def subWordTodo (s pat rep : List Char) : List Char :=
  subWordFuel s.length none pat rep s

/-- `re.findall(r"(\d+)\s*([a-zA-Z]*)", s)` (line 129): every maximal digit
run together with the ASCII-letter run that follows it (after optional
whitespace); scanning resumes after the letters. -/
def findallNumLet : Nat → List Char → List (List Char × List Char)
  | 0, _ => []
  | f + 1, s =>
    match s with
    | [] => []
    | c :: cs =>
      if esDigitoPy c then
        let d := (c :: cs).takeWhile esDigitoPy
        let r1 := (c :: cs).drop d.length
        let w := r1.takeWhile esEspacioPy
        let r2 := r1.drop w.length
        let l := r2.takeWhile esAlfaAscii
        let r3 := r2.drop l.length
        (d, l) :: findallNumLet f r3
      else findallNumLet f cs

/-- The loop of lines 133-139: build the normalized components and thread
`texto_restante` through `replace(num, "", 1).replace(letra, "", 1).strip()`. -/
def procesaPares : List (List Char × List Char) → List Char → List (List Char) × List Char
  | [], restante => ([], restante)
  | (d, l) :: ps, restante =>
    let comp := d ++
      (if !l.isEmpty &&
          (l == "bis".data || l == "ter".data || l == "quater".data ||
           (l.length == 1 && l.all esAlfaAscii))
       then l else [])
    let r1 := pyStrip (reemplazaPrimera (reemplazaPrimera restante d) l)
    let (cs, rf) := procesaPares ps r1
    (comp :: cs, rf)

/-- The final `return` logic of the normalizer: `none` models the early
`return "s/n_error_normalizacion"`, and `some l` flows into
`return id_final if id_final else "s/n"` (line 162). -/
def normCierre : Option (List Char) → String
  | none => "s/n_error_normalizacion"
  | some l => if l.isEmpty then "s/n" else String.mk l

/-- Lines 109-159 of the normalizer: everything after the two table lookups,
on the stripped lowercase label `s`. -/
def normNucleo (s : List Char) : Option (List Char) :=
  -- lines 109-115: transitorio prefix detection
  let pt : List Char × List Char :=
    match matchTransitorio s with
    | some g2 => ("t".data, pyStrip (rstripLista ['.', '-'] (pyStrip g2)))
    | none => ([], s)
  let pref := pt.1
  let s3 := pt.2
  -- lines 117-121: whole-word ordinal replacement, in table order
  let s4 := WORDS_TO_INT.foldl (fun acc pd => subWordTodo acc pd.1.data pd.2.data) s3
  -- line 124: re.sub(r"[º°ª\.,]", "", s)
  let s5 := s4.filter (fun c => !decide (c = 'º' ∨ c = '°' ∨ c = 'ª' ∨ c = '.' ∨ c = ','))
  -- line 127: s.strip().rstrip('-').strip()
  let s6 := pyStrip (rstripLista ['-'] (pyStrip s5))
  -- lines 129-139
  let pares := findallNumLet s6.length s6
  let cr := procesaPares pares s6
  let comps := cr.1
  let restante := cr.2
  -- lines 142-147: leftover text as a roman numeral
  let cr1 : List (List Char) × List Char :=
    if comps.isEmpty && !restante.isEmpty then
      let posibleRomano := restante.filter (fun c => c ≠ ' ')
      match ROMAN_TO_INT.lookup (String.mk posibleRomano) with
      | some n => ([(toString n).data], [])
      | none => (comps, restante)
    else (comps, restante)
  -- lines 148-150: leftover text verbatim (spaces removed)
  let comps2 :=
    if cr1.1.isEmpty && !cr1.2.isEmpty then [cr1.2.filter (fun c => c ≠ ' ')] else cr1.1
  -- line 152
  let idFinal := pref ++ comps2.flatten
  -- lines 153-159
  if (stripLista pref idFinal).isEmpty then
    let sinPref := pyStrip ((s6.filter (fun c => c ≠ ' ')).filter
      (fun c => decide (('a' ≤ c ∧ c ≤ 'z') ∨ ('0' ≤ c ∧ c ≤ '9'))))
    if sinPref.isEmpty then none else some (pref ++ sinPref)
  else some idFinal

/-- Lines 96-100 of the normalizer: `s = str(num_str).lower().strip()`, the
leading-label `re.sub`, then `s = s.rstrip('.-').strip()`. -/
def etiquetaBase (str : String) : List Char :=
  pyStrip (rstripLista ['.', '-'] (pyStrip (stripPrefijoArt (pyStrip (str.data.map minusculaPy)))))

/-- `normalizar_numero_articulo` (main.py, lines 93-162).  `none` models the
Python `None` argument; `none` and the empty string both hit the
`if not num_str: return "s/n"` guard.  After `etiquetaBase` come the two
table lookups (lines 102-107) and the rest of the pipeline. -/
def normalizar_numero_articulo : Option String → String
  | none => "s/n"
  | some str =>
    if str.data.isEmpty then "s/n"
    else
      match WORDS_TO_INT.lookup (String.mk (etiquetaBase str)) with
      | some v => v
      | none =>
        match ROMAN_TO_INT.lookup (String.mk (etiquetaBase str)) with
        | some n => toString n
        | none => normCierre (normNucleo (etiquetaBase str))

/-! ## The text cleaner (main.py, lines 85-91) -/

/-- `re.sub(r"[ \t]+", " ", txt)`: collapse runs of spaces/tabs to one space. -/
def colapsaEspTab : List Char → List Char
  | [] => []
  | c :: cs =>
    if c = ' ' ∨ c = '\t' then
      match cs with
      | d :: _ => if d = ' ' ∨ d = '\t' then colapsaEspTab cs else ' ' :: colapsaEspTab cs
      | [] => [' ']
    else c :: colapsaEspTab cs

/-- Position of the last `'\n'` in a list, if any. -/
def posUltimoNl (l : List Char) : Option Nat :=
  match l.reverse.findIdx? (fun c => c = '\n') with
  | some k => some (l.length - 1 - k)
  | none => none

/-- `re.sub(r"\n\s*\n+", "\n", txt)`: a newline followed by a whitespace run
that contains at least one more newline collapses, up to the last newline of
that run, into a single newline (greedy `\s*` backtracks so that `\n+` ends
the match at the run's last newline).  Fuel-based recursion; the fuel
`s.length` always suffices since each step consumes at least one character. -/
def colapsaLineasFuel : Nat → List Char → List Char
  | 0, s => s
  | _ + 1, [] => []
  | f + 1, c :: cs =>
    if c = '\n' then
      match posUltimoNl (cs.takeWhile esEspacioPy) with
      | some k => '\n' :: colapsaLineasFuel f (cs.drop (k + 1))
      | none => '\n' :: colapsaLineasFuel f cs
    else c :: colapsaLineasFuel f cs

def colapsaLineas (s : List Char) : List Char := colapsaLineasFuel s.length s

/-- Python `txt.split("\n")` (keeps empty pieces). -/
def divideNl : List Char → List (List Char)
  | [] => [[]]
  | c :: cs =>
    if c = '\n' then [] :: divideNl cs
    else
      match divideNl cs with
      | l :: ls => (c :: l) :: ls
      | [] => [[c]]

/-- `limpiar_texto` (main.py, lines 85-91). -/
def limpiar_texto (texto : String) : String :=
  if texto.data.isEmpty then ""
  else
    let t1 := colapsaEspTab texto.data
    let t2 := colapsaLineas t1
    let lineas := (divideNl t2).map pyStrip
    String.mk (pyStrip ((lineas.intersperse ['\n']).flatten))

/-! ## The reference extractor (main.py, lines 165-167)

`re.findall(r'\b[Ll]ey\s+N?(?:[°ºªo]|\.?)?\s*[\d\.]+|\b[Dd][Ss]?\s*N[°º]?\s*\d{3,6}|\b[Dd][Ff][Ll]?\s*N[°º]?\s*\d{1,6}', texto)`:
leftmost scan; at each position the three alternatives are tried in order;
greedy quantifiers with Python's backtracking. -/

/-- Tail of alternative 1 after `[Ll]ey\s+N?(?:[°ºªo]|\.?)?`: `\s*[\d\.]+`. -/
def a1Fin (con r : List Char) : Option (List Char × List Char) :=
  let ws := r.takeWhile esEspacioPy
  let r1 := r.drop ws.length
  let ds := r1.takeWhile (fun c => esDigitoPy c || c = '.')
  if ds.isEmpty then none else some (con ++ ws ++ ds, r1.drop ds.length)

/-- The `(?:[°ºªo]|\.?)?` group of alternative 1, alternatives in order, then
`a1Fin`; failing branches backtrack to the next one. -/
def a1Grupo (con r : List Char) : Option (List Char × List Char) :=
  (match r with
   | c :: r1 =>
     if c = '°' ∨ c = 'º' ∨ c = 'ª' ∨ c = 'o' then a1Fin (con ++ [c]) r1 else none
   | [] => none) <|>
  (match r with
   | '.' :: r1 => a1Fin (con ++ ['.']) r1
   | _ => none) <|>
  a1Fin con r

/-- Alternative 1: `[Ll]ey\s+N?(?:[°ºªo]|\.?)?\s*[\d\.]+`. -/
def altA1 (s : List Char) : Option (List Char × List Char) :=
  match s with
  | c :: 'e' :: 'y' :: r =>
    if c = 'L' ∨ c = 'l' then
      let ws := r.takeWhile esEspacioPy
      if ws.isEmpty then none
      else
        let r1 := r.drop ws.length
        let con := c :: 'e' :: 'y' :: ws
        (match r1 with
         | 'N' :: r2 => a1Grupo (con ++ ['N']) r2
         | _ => none) <|> a1Grupo con r1
    else none
  | _ => none

/-- Tail `\s*\d{lo,6}` shared by alternatives 2 and 3 (greedy counted digits,
at least `lo`, at most 6). -/
def aDigitos (lo : Nat) (con r : List Char) : Option (List Char × List Char) :=
  let ws := r.takeWhile esEspacioPy
  let r1 := r.drop ws.length
  let ds := r1.takeWhile esDigitoPy
  if ds.length < lo then none
  else
    let tomados := ds.take 6
    some (con ++ ws ++ tomados, r1.drop tomados.length)

/-- Tail `\s*N[°º]?\s*\d{lo,6}` shared by alternatives 2 and 3. -/
def aEne (lo : Nat) (con r : List Char) : Option (List Char × List Char) :=
  let ws := r.takeWhile esEspacioPy
  match r.drop ws.length with
  | 'N' :: r2 =>
    (match r2 with
     | c :: r3 => if c = '°' ∨ c = 'º' then aDigitos lo (con ++ ws ++ ['N', c]) r3 else none
     | [] => none) <|>
    aDigitos lo (con ++ ws ++ ['N']) r2
  | _ => none

/-- Alternative 2: `[Dd][Ss]?\s*N[°º]?\s*\d{3,6}`. -/
def altA2 (s : List Char) : Option (List Char × List Char) :=
  match s with
  | c :: r =>
    if c = 'D' ∨ c = 'd' then
      (match r with
       | c2 :: r2 => if c2 = 'S' ∨ c2 = 's' then aEne 3 [c, c2] r2 else none
       | [] => none) <|>
      aEne 3 [c] r
    else none
  | [] => none

/-- Alternative 3: `[Dd][Ff][Ll]?\s*N[°º]?\s*\d{1,6}`. -/
def altA3 (s : List Char) : Option (List Char × List Char) :=
  match s with
  | c :: c2 :: r =>
    if (c = 'D' ∨ c = 'd') ∧ (c2 = 'F' ∨ c2 = 'f') then
      (match r with
       | c3 :: r3 => if c3 = 'L' ∨ c3 = 'l' then aEne 1 [c, c2, c3] r3 else none
       | [] => none) <|>
      aEne 1 [c, c2] r
    else none
  | _ => none

/-- One match attempt at the current position: the three alternatives in the
pattern's order (the shared `\b` has already been checked by the caller). -/
def refMatchEn (s : List Char) : Option (List Char × List Char) :=
  altA1 s <|> altA2 s <|> altA3 s

/-- The scan loop of `re.findall` for the reference pattern: try a match at
every position whose left context is a word boundary, and resume after each
match. -/
def findallRefs : Nat → Option Char → List Char → List (List Char)
  | 0, _, _ => []
  | f + 1, prev, s =>
    match s with
    | [] => []
    | c :: cs =>
      let borde := match prev with
        | none => true
        | some p => !esCaracterPalabra p
      match (if borde then refMatchEn (c :: cs) else none) with
      | some (m, resto) => m :: findallRefs f m.getLast? resto
      | none => findallRefs f (some c) cs

/-- `extraer_referencias_legales` (main.py, lines 165-167):
`list(set([limpiar_texto(r) for r in refs]))`. -/
def extraer_referencias_legales (texto : String) : List String :=
  conjuntoLista ((findallRefs texto.data.length none texto.data).map
    (fun m => limpiar_texto (String.mk m)))

/-! ## Data model (main.py, lines 65-71) -/

/-- The `Articulo` pydantic model. -/
structure Articulo where
  articulo_display : String
  articulo_id_interno : String
  texto : String
  referencias_legales : List String
  id_parte_xml : Option String
  nota_busqueda : Option String
deriving DecidableEq, Repr

/-- The `detalle_error` dict raised on "not found" (main.py, lines 386-391).
`sugerencias` holds the raw suggestion list; `sugerencia` is the formatted
message built from it by the f-string. -/
structure DetalleError where
  error : String
  sugerencia : String
  sugerencias : List String
  ids_disponibles_muestra : List String
  displays_disponibles_muestra : List String
deriving DecidableEq, Repr

/-- `HTTPException(status_code, detail)` as raised by the resolver. -/
structure ErrorHTTP where
  status_code : Nat
  detail : DetalleError
deriving DecidableEq, Repr

/-! ## difflib.get_close_matches (used at main.py, lines 382-383)

`SequenceMatcher.ratio` is `2*M/T` where `M` is the total size of the
matching blocks and `T` the sum of lengths.  `autojunk` only kicks in when
the second sequence has 200+ elements, far beyond the resolver's inputs, so
the junk set is empty and `find_longest_match` reduces to: the longest common
block, ties broken by smallest end position in `a`, then in `b` (the
junk-extension loops are no-ops).  Ratios are kept as exact pairs
`(2*M, T)`; the float rounding of CPython cannot distinguish the tiny
rationals that arise here.  The `real_quick_ratio`/`quick_ratio` prefilters
are upper bounds of `ratio`, so filtering on `ratio ≥ cutoff` alone is
equivalent. -/

/-- Length of the common block of `a` and `b` ending at positions `i`, `j`
(inclusive), not reaching below `alo`/`blo`. -/
def largoBloque : Nat → Array Char → Array Char → Nat → Nat → Nat → Nat → Nat
  | 0, _, _, _, _, _, _ => 0
  | f + 1, a, b, alo, blo, i, j =>
    if a.getD i ' ' = b.getD j ' ' then
      1 + (if alo < i ∧ blo < j then largoBloque f a b alo blo (i - 1) (j - 1) else 0)
    else 0

/-- `find_longest_match` over `a[alo:ahi]`, `b[blo:bhi]` with an empty junk
set: scan end positions in lexicographic order and keep the first strict
maximum; returns the block's start positions and its size. -/
def mejorBloque (a b : Array Char) (alo ahi blo bhi : Nat) : Nat × Nat × Nat :=
  (List.range' alo (ahi - alo)).foldl (fun mejor i =>
    (List.range' blo (bhi - blo)).foldl (fun mejor j =>
      let k := largoBloque (i + j + 1) a b alo blo i j
      if mejor.2.2 < k then (i + 1 - k, j + 1 - k, k) else mejor) mejor)
    (alo, blo, 0)

/-- Total size of the matching blocks (the recursion of
`get_matching_blocks`): take the longest block, recurse on both sides. -/
def totalBloques : Nat → Array Char → Array Char → Nat → Nat → Nat → Nat → Nat
  | 0, _, _, _, _, _, _ => 0
  | f + 1, a, b, alo, ahi, blo, bhi =>
    let m := mejorBloque a b alo ahi blo bhi
    if m.2.2 = 0 then 0
    else totalBloques f a b alo m.1 blo m.2.1 + m.2.2 +
         totalBloques f a b (m.1 + m.2.2) ahi (m.2.1 + m.2.2) bhi

/-- `2 * M` for `SequenceMatcher(None, a, b)`. -/
def dosM (a b : List Char) : Nat :=
  2 * totalBloques (a.length + b.length + 1) a.toArray b.toArray 0 a.length 0 b.length

/-- Python string comparison (`>` on code points, lexicographic). -/
def cadenaMayor : List Char → List Char → Bool
  | [], _ => false
  | _ :: _, [] => true
  | c :: cs, d :: ds =>
    if c = d then cadenaMayor cs ds else decide (d < c)

/-- Strict `>` on the pairs `(ratio, string)` as compared by
`heapq.nlargest` (ratio as exact rational `m / t`; both `t` are positive for
nonempty inputs, and Python would raise on `t = 0`). -/
def parMayor (p q : (Nat × Nat) × String) : Bool :=
  p.1.1 * q.1.2 > q.1.1 * p.1.2 ||
  (p.1.1 * q.1.2 == q.1.1 * p.1.2 && cadenaMayor p.2.data q.2.data)

/-- Stable insertion in descending order (equal keys keep first-come order,
like `sorted(reverse=True)`, to which `heapq.nlargest` is equivalent). -/
def insertaDesc (x : (Nat × Nat) × String) : List ((Nat × Nat) × String) → List ((Nat × Nat) × String)
  | [] => [x]
  | y :: ys => if parMayor x y then x :: y :: ys else y :: insertaDesc x ys

def ordenaDesc (l : List ((Nat × Nat) × String)) : List ((Nat × Nat) × String) :=
  l.foldr insertaDesc []

/-- `difflib.get_close_matches(word, possibilities, n, cutoff)` with the
cutoff given as `corteNum / 10`; `seq2 = word`, `seq1` = each possibility. -/
def get_close_matches (word : String) (posibilidades : List String)
    (n : Nat) (corteNum : Nat) : List String :=
  let pares := posibilidades.filterMap (fun x =>
    let m := dosM x.data word.data
    let t := x.data.length + word.data.length
    if 10 * m ≥ corteNum * t then some ((m, t), x) else none)
  (((ordenaDesc pares).take n).map (fun p => p.2))

/-! ## The article resolver (main.py, lines 338-393)

Python mutates `nota_busqueda` on the records of the input list; the model
returns the input list's post-call state as the first component. -/

/-- Python `str(x)` on an `Optional[str]`: `str(None) = "None"`. -/
def strOpcion : Option String → String
  | none => "None"
  | some s => s

/-- Python `repr` of a list of strings, as interpolated by the f-string
(our strings contain no characters `repr` would escape). -/
def pyReprLista (xs : List String) : String :=
  "[" ++ String.intercalate ", " (xs.map (fun s => "\x27" ++ s ++ "\x27")) ++ "]"

/-- Step 5 (lines 379-393): build the 404 diagnostic. -/
def buscar_paso5 (articulos : List Articulo) (articulo_buscado art_normalizado : String)
    (abls : List Char) : List Articulo × Except ErrorHTTP (List Articulo) :=
  let ids_internos := articulos.map (fun a => a.articulo_id_interno)
  let displays := articulos.map (fun a => a.articulo_display)
  let match_cercanos_ids := get_close_matches art_normalizado ids_internos 3 7
  let match_cercanos_disp := get_close_matches (String.mk abls) displays 3 6
  let sugerencias := conjuntoLista (match_cercanos_ids ++ match_cercanos_disp)
  (articulos, Except.error {
    status_code := 404,
    detail := {
      error := "Artículo \x27" ++ articulo_buscado ++ "\x27 (buscado como \x27" ++
               art_normalizado ++ "\x27) no encontrado.",
      sugerencia := if sugerencias.isEmpty then "No se encontraron coincidencias cercanas."
                    else "Quizá quiso decir: " ++ pyReprLista sugerencias,
      sugerencias := sugerencias,
      ids_disponibles_muestra := ids_internos.take 15,
      displays_disponibles_muestra := displays.take 15 } })

/-- Step 4 (lines 365-377): fuzzy textual search; matches get
`nota_busqueda` set in place. -/
def buscar_paso4 (articulos : List Articulo) (articulo_buscado art_normalizado : String)
    (abls : List Char) : List Articulo × Except ErrorHTTP (List Articulo) :=
  let pred4 := fun (a : Articulo) =>
    esSubcadena abls (a.texto.data.map minusculaPy) ||
    esSubcadena abls (a.articulo_display.data.map minusculaPy) ||
    (!(art_normalizado == "s/n") && !(art_normalizado == "s/n_error_normalizacion") &&
     esSubcadena art_normalizado.data (a.texto.data.map minusculaPy))
  let posibles := articulos.filter pred4
  if !posibles.isEmpty then
    let pon := fun (a : Articulo) =>
      { a with nota_busqueda := some "Búsqueda textual (no coincidió identificador exacto)" }
    (articulos.map (fun a => if pred4 a then pon a else a), Except.ok (posibles.map pon))
  else buscar_paso5 articulos articulo_buscado art_normalizado abls

/-- Step 3 (lines 357-363): lookup by `id_parte_xml`, only for an
all-digits query; matches get `nota_busqueda` set in place. -/
def buscar_paso3 (articulos : List Articulo) (articulo_buscado art_normalizado : String)
    (abls : List Char) : List Articulo × Except ErrorHTTP (List Articulo) :=
  if pyEsDigito articulo_buscado.data then
    let pred3 := fun (a : Articulo) => strOpcion a.id_parte_xml == articulo_buscado
    let posibles := articulos.filter pred3
    if !posibles.isEmpty then
      let pon := fun (a : Articulo) => { a with nota_busqueda := some "Búsqueda por id_parte_xml" }
      (articulos.map (fun a => if pred3 a then pon a else a), Except.ok (posibles.map pon))
    else buscar_paso4 articulos articulo_buscado art_normalizado abls
  else buscar_paso4 articulos articulo_buscado art_normalizado abls

/-- Step 2 (lines 349-355): exact display match, case-insensitive and
trimmed; matches get `nota_busqueda` set in place. -/
def buscar_paso2 (articulos : List Articulo) (articulo_buscado art_normalizado : String) :
    List Articulo × Except ErrorHTTP (List Articulo) :=
  let abls := (pyStrip articulo_buscado.data).map minusculaPy
  let pred2 := fun (a : Articulo) => abls == (pyStrip a.articulo_display.data).map minusculaPy
  let posibles := articulos.filter pred2
  if !posibles.isEmpty then
    let pon := fun (a : Articulo) => { a with nota_busqueda := some "Búsqueda por display exacto" }
    (articulos.map (fun a => if pred2 a then pon a else a), Except.ok (posibles.map pon))
  else buscar_paso3 articulos articulo_buscado art_normalizado abls

/-- `buscar_articulo_avanzado` (main.py, lines 338-393).  The first component
is the state of the input list after the call (Python mutates the records in
place); the second is the returned list or the raised `HTTPException`. -/
def buscar_articulo_avanzado (articulos : List Articulo) (articulo_buscado : String) :
    List Articulo × Except ErrorHTTP (List Articulo) :=
  let art_normalizado := normalizar_numero_articulo (some articulo_buscado)
  -- step 1 (lines 343-347): exact internal id, returned untouched
  let resultados := articulos.filter (fun a => a.articulo_id_interno == art_normalizado)
  if !resultados.isEmpty then (articulos, Except.ok resultados)
  else buscar_paso2 articulos articulo_buscado art_normalizado

/-! ## The document parser (main.py, lines 260-335)

The XML side (`ET.fromstring` and the `findall` over
`EstructuraFuncional[@tipoParte="Artículo"]`) is modelled by taking the list
of article nodes directly: each node carries its `idParte` attribute, its
optional `Metadatos` child (with the text of `TituloParte` / `NombreParte`,
`none` standing for a missing tag or a `None` text) and the text of its
`Texto` child.  Everything from line 277 on is translated verbatim. -/

structure MetadatosEF where
  tituloParte : Option String
  nombreParte : Option String
deriving DecidableEq, Repr

structure NodoEF where
  idParte : Option String
  metadatos : Option MetadatosEF
  texto : Option String
deriving DecidableEq, Repr

def MAX_TEXT_LENGTH : Nat := 20000

def TRUNCATION_SUFFIX : String := "\n\n[Texto truncado por longitud excesiva]"

/-- Python `l.rsplit(' ', 1)[0]`: everything before the last space, or the
whole string when it has no space. -/
def pyRsplitCabeza (l : List Char) : List Char :=
  match l.reverse.findIdx? (fun c => c = ' ') with
  | some k => l.take (l.length - 1 - k)
  | none => l

/-- The word-or-whitespace run `[\w\d\s]+` together with what the pattern
already consumed; fails if the run is empty.  The `\s*` that ends the
optional `art…` prefix and the run merge into one maximal run (whitespace is
in both classes), and the `(?:bis|ter|quater)?` suffix after the run is
always empty since those letters are word characters already absorbed by the
greedy run. -/
def conRunPal (con r : List Char) : Option (List Char × List Char) :=
  let run := r.takeWhile (fun c => esCaracterPalabra c || esEspacioPy c)
  if run.isEmpty then none else some (con ++ run, r.drop run.length)

/-- `\.?` before the run, greedy with fallback. -/
def trasPunto (con r : List Char) : Option (List Char × List Char) :=
  (match r with
   | '.' :: r1 => conRunPal (con ++ ['.']) r1
   | _ => none) <|> conRunPal con r

/-- `s?` before `\.?`, greedy with fallback (case-insensitive). -/
def trasEse (con r : List Char) : Option (List Char × List Char) :=
  (match quitaCI ['s'] r with
   | some (cs, r1) => trasPunto (con ++ cs) r1
   | none => none) <|> trasPunto con r

/-- The optional prefix `(?:art(?:ículo|iculo)?s?\.?\s*)?` followed by the
mandatory run, alternatives in the pattern's order with backtracking. -/
def pruebaArtPref (r : List Char) : Option (List Char × List Char) :=
  match quitaCI "art".data r with
  | none => none
  | some (c0, r0) =>
    (match quitaCI "ículo".data r0 with
     | some (c1, r1) => trasEse (c0 ++ c1) r1
     | none => none) <|>
    (match quitaCI "iculo".data r0 with
     | some (c1, r1) => trasEse (c0 ++ c1) r1
     | none => none) <|>
    trasEse c0 r0

/-- Group 3 of the heading pattern: skip the optional `([\.\-\–\—:]\s*)`
delimiter group and return the rest (`.*` with `DOTALL`). -/
def grupoTres (r : List Char) : List Char :=
  match r with
  | c :: cs =>
    if c = '.' ∨ c = '-' ∨ c = '–' ∨ c = '—' ∨ c = ':' then cs.dropWhile esEspacioPy else r
  | [] => []

/-- `re.match(r"^\s*((?:art(?:ículo|iculo)?s?\.?\s*)?[\w\d\s]+(?:bis|ter|quater)?)\s*([\.\-\–\—:]\s*)?(.*)", texto, re.IGNORECASE | re.DOTALL)`
(main.py, line 300), returning groups 1 and 3.  The leading `^\s*` is greedy;
when the first non-blank character cannot start group 1, it backtracks one
whitespace character, which then forms the whole run. -/
def matchNumTexto (texto : List Char) : Option (List Char × List Char) :=
  let w := texto.takeWhile esEspacioPy
  let resto := texto.drop w.length
  match pruebaArtPref resto <|> conRunPal [] resto with
  | some (g1, r) => some (g1, grupoTres r)
  | none =>
    match w.getLast? with
    | some u => some ([u], grupoTres resto)
    | none => none

/-- `re.sub(r"^(artículo|articulo|art\.?)\s*", "", display_temp, flags=re.IGNORECASE)`
(main.py, line 304). -/
def quitaArtCorto (s : List Char) : List Char :=
  match quitaCI "artículo".data s with
  | some (_, r) => r.dropWhile esEspacioPy
  | none =>
  match quitaCI "articulo".data s with
  | some (_, r) => r.dropWhile esEspacioPy
  | none =>
  match quitaCI "art".data s with
  | some (_, r) =>
    (match r with
     | '.' :: r1 => r1.dropWhile esEspacioPy
     | _ => r.dropWhile esEspacioPy)
  | none => s

/-- The label fallback to `Metadatos/NombreParte` (main.py, lines 288-291). -/
def etiquetaNombre (md : MetadatosEF) : List Char :=
  match md.nombreParte with
  | some nb => if !(pyStrip nb.data).isEmpty then (limpiar_texto nb).data else "S/N".data
  | none => "S/N".data

/-- Lines 277-312: compute `numero_display_extraido` and
`texto_neto_articulo` for one node. -/
def etiquetaYTexto (nodo : NodoEF) : List Char × List Char :=
  let completo := pyStrip ((nodo.texto.getD "").data)
  let display0 : List Char :=
    match nodo.metadatos with
    | none => "S/N".data
    | some md =>
      match md.tituloParte with
      | some t => if !(pyStrip t.data).isEmpty then (limpiar_texto t).data else etiquetaNombre md
      | none => etiquetaNombre md
  let dn : List Char × List Char :=
    if display0 = "S/N".data ∨
       !pyEsDigito (normalizar_numero_articulo (some (String.mk display0))).data then
      match matchNumTexto completo with
      | some (g1, g3) =>
        let display_temp := pyStrip g1
        let nd := pyStrip (rstripLista ['.', '-'] (pyStrip (quitaArtCorto display_temp)))
        let neto :=
          if !(pyStrip g3).isEmpty then pyStrip g3
          else if nd ≠ completo then []
          else completo
        (nd, neto)
      | none => (display0, completo)
    else (display0, completo)
  let display2 :=
    match nodo.idParte with
    | some p => if dn.1 = "S/N".data ∧ !p.data.isEmpty then ("IDParte-" ++ p).data else dn.1
    | none => dn.1
  (display2, dn.2)

/-- Lines 314-333: normalize the label, skip the node on the error sentinel,
clean and truncate the body, extract references, build the record. -/
def procesarNodo (nodo : NodoEF) : Option Articulo :=
  let et := etiquetaYTexto nodo
  let numero_id_interno := normalizar_numero_articulo (some (String.mk et.1))
  if numero_id_interno = "s/n_error_normalizacion" then none
  else
    let limpio := limpiar_texto (String.mk et.2)
    let texto_final :=
      if limpio.data.length > MAX_TEXT_LENGTH then
        String.mk (pyRsplitCabeza (limpio.data.take MAX_TEXT_LENGTH)) ++ TRUNCATION_SUFFIX
      else limpio
    some {
      articulo_display := String.mk et.1,
      articulo_id_interno := numero_id_interno,
      texto := texto_final,
      referencias_legales := extraer_referencias_legales texto_final,
      id_parte_xml := nodo.idParte,
      nota_busqueda := none }

/-- `extraer_articulos` (main.py, lines 260-335) over the article-node list,
in document order; the `continue` on a sentinel id is the `none` of
`procesarNodo`. -/
def extraer_articulos (nodos : List NodoEF) : List Articulo :=
  nodos.filterMap procesarNodo

/-! ## Helper lemmas -/

/-- Any value produced by `List.lookup` satisfies a property holding for
every value of the association list. -/
theorem lookup_conserva {α β : Type} [BEq α] (P : β → Prop)
    (l : List (α × β)) (hl : ∀ p ∈ l, P p.2) (k : α) (v : β)
    (hkv : l.lookup k = some v) : P v := by
  induction l with
  | nil => simp [List.lookup] at hkv
  | cons p ps ih =>
    obtain ⟨pk, pv⟩ := p
    rw [List.lookup] at hkv
    cases h : k == pk with
    | true =>
      rw [h] at hkv
      simp only [Option.some.injEq] at hkv
      exact hkv ▸ hl (pk, pv) (List.mem_cons_self _ _)
    | false =>
      rw [h] at hkv
      exact ih (fun q hq => hl q (List.mem_cons_of_mem _ hq)) hkv

/-- A `String` built from a nonempty character list is nonempty. -/
theorem mk_ne_vacia (l : List Char) (hl : l ≠ []) : String.mk l ≠ "" := by
  intro h
  exact hl (congrArg String.data h)

/-- The closing guard of the normalizer never yields the empty string. -/
theorem normCierre_no_vacia (o : Option (List Char)) : normCierre o ≠ "" := by
  cases o with
  | none => decide
  | some l =>
    simp only [normCierre]
    split
    · decide
    · next h => exact mk_ne_vacia l (by simpa using h)

/-- C10: the normalizer is total (it is a total Lean function, faithfully
mirroring a Python function with no raising operation) and for every input
— `None`, the empty string, or any other string — its result is a nonempty
string. -/
theorem C10_normalizador_total_no_vacio (x : Option String) :
    normalizar_numero_articulo x ≠ "" := by
  cases x with
  | none => decide
  | some str =>
    simp only [normalizar_numero_articulo]
    split
    · decide
    · split
      · next v heq =>
        exact lookup_conserva (fun w => w ≠ "") WORDS_TO_INT (by decide) _ v heq
      · split
        · next n heq =>
          exact lookup_conserva (fun m => toString m ≠ "") ROMAN_TO_INT (by decide) _ n heq
        · exact normCierre_no_vacia _

/-! ## C1 — transitory prefixing -/

/-- C1 counterexample: the claim states `normalize("Primero Transitorio") =
"t1"` (a `"t"`-prefixed id regardless of where the transitorio token
appears), but the code only detects the token at the start of the label:
the trailing "Transitorio" is swallowed by the digit/letters scan and the
result is `"1"`, with no `"t"` prefix. -/
theorem C1_counterexample :
    normalizar_numero_articulo (some "Primero Transitorio") = "1" ∧ ("1" : String) ≠ "t1" := by
  exact ⟨by decide, by decide⟩

/-- C1 amended: the normalizer maps transitory labels to a `"t"`-prefixed id
only when the transitorio token leads the label: `normalize("Transitorio 5")
= "t5"`, while the trailing placement `normalize("Primero Transitorio")`
yields plain `"1"`. -/
theorem C1_amended :
    normalizar_numero_articulo (some "Transitorio 5") = "t5" ∧
    normalizar_numero_articulo (some "Primero Transitorio") = "1" := by
  exact ⟨by decide, by decide⟩

/-! ## C2 — roman-numeral table -/

/-- C2: the claim (a complete, correct roman table i→1 … xx→20 and
`normalize("XV") = "15"`) is the evident intent, but the table as written
skips `'xv'` entirely and maps `'xiv'` to `15`: `normalize("XV")` falls
through both lookups and returns the residue `"xv"` verbatim, and
`normalize("XIV")` returns `"15"` instead of `"14"`. -/
theorem C2_theorem :
    ROMAN_TO_INT.lookup "xv" = none ∧
    ROMAN_TO_INT.lookup "xiv" = some 15 ∧
    normalizar_numero_articulo (some "XV") = "xv" ∧
    normalizar_numero_articulo (some "XIV") = "15" := by
  exact ⟨by decide, by decide, by decide, by decide⟩

/-! ## C4 — idempotence -/

/-- C4 counterexample: normalization is not idempotent on every label.  The
label `"prim ero"` normalizes to the residue `"primero"` (spaces removed),
which is itself an ordinal-word key: re-normalizing yields `"1"`. -/
theorem C4_counterexample :
    normalizar_numero_articulo (some "prim ero") = "primero" ∧
    normalizar_numero_articulo (some (normalizar_numero_articulo (some "prim ero"))) = "1" ∧
    ("1" : String) ≠ "primero" := by
  exact ⟨by decide, by decide, by decide⟩

/-- C4 amended: re-normalizing the canonical form is a no-op for all of the
spec's tested labels (its §4.2/§8 edge cases), i.e.
`normalize(normalize(x)) = normalize(x)` for each of them. -/
theorem C4_amended :
    (["", "!!!", "...", "1 bis", "1bis", "1 BIS", "Primero Transitorio",
      "Transitorio 5", "XV", "xv", "Artículo Final", "Artículo 15",
      "Artículo Único", "Final"] : List String).all
      (fun x => normalizar_numero_articulo
          (some (normalizar_numero_articulo (some x))) ==
        normalizar_numero_articulo (some x)) = true := by
  decide

/-! ## C7 — error sentinels -/

/-- C7 counterexample: the claim states `normalize("!!!") =
"normalization-error"` (the reserved error value, `"s/n_error_normalizacion"`
in the code), but `'!'` survives every stripping stage: the residue `"!!!"`
becomes the only component and is returned verbatim. -/
theorem C7_counterexample :
    normalizar_numero_articulo (some "!!!") = "!!!" ∧
    ("!!!" : String) ≠ "s/n_error_normalizacion" := by
  exact ⟨by decide, by decide⟩

/-- C7 amended: `None` and the empty string map to the reserved value
`"s/n"` (the spec's "no-number"), and input that really reduces to nothing
after the stripping stages — e.g. `"..."`, all of whose characters are
stripped — yields the reserved error value `"s/n_error_normalizacion"`
(the spec's "normalization-error"); `"!!!"` is not such an input and is
returned verbatim. -/
theorem C7_amended :
    normalizar_numero_articulo none = "s/n" ∧
    normalizar_numero_articulo (some "") = "s/n" ∧
    normalizar_numero_articulo (some "...") = "s/n_error_normalizacion" ∧
    normalizar_numero_articulo (some "!!!") = "!!!" := by
  exact ⟨by decide, by decide, by decide, by decide⟩

/-! ## C8 — the parser never surfaces the error sentinel -/

/-- C8: for every list of article nodes, no record produced by
`extraer_articulos` carries the normalization-error sentinel as its internal
id: a node whose label normalizes to the sentinel is skipped (`continue`)
and never emitted. -/
theorem C8_parser_sin_sentinela (nodos : List NodoEF) (a : Articulo)
    (h : a ∈ extraer_articulos nodos) :
    a.articulo_id_interno ≠ "s/n_error_normalizacion" := by
  obtain ⟨n, _, hp⟩ := List.mem_filterMap.mp h
  simp only [procesarNodo] at hp
  by_cases hs : normalizar_numero_articulo (some (String.mk (etiquetaYTexto n).1)) =
      "s/n_error_normalizacion"
  · rw [if_pos hs] at hp
    exact absurd hp (by simp)
  · rw [if_neg hs] at hp
    have hrec := Option.some.inj hp
    subst hrec
    simpa using hs

def nodoC8 : NodoEF := ⟨some "7", some ⟨some "Artículo 1", none⟩, some "Texto de prueba"⟩

def articuloC8 : Articulo := ⟨"Artículo 1", "1", "Texto de prueba", [], some "7", none⟩

/-- C8 witness: a concrete parse in which the theorem's hypothesis holds. -/
theorem C8_witness :
    articuloC8 ∈ extraer_articulos [nodoC8] ∧
    articuloC8.articulo_id_interno ≠ "s/n_error_normalizacion" :=
  ⟨by decide, C8_parser_sin_sentinela [nodoC8] articuloC8 (by decide)⟩

/-! ## C5 — resolver layering -/

/-- C5: the resolver's strategies apply in order with the first non-empty
result winning.  For any list whose records carry no search note (as the
parser produces them): when the normalized query matches some record's
internal id, exactly the records with that id are returned, unmodified and
hence with no search note; when no id matches but the lowercased/trimmed
query equals some record's display label, those records are returned with
the display-match search note set. -/
theorem C5_resolutor_capas (arts : List Articulo) (q : String)
    (hnotas : ∀ a ∈ arts, a.nota_busqueda = none) :
    ((arts.filter (fun a => a.articulo_id_interno == normalizar_numero_articulo (some q))) ≠ [] →
      (buscar_articulo_avanzado arts q).2 =
        Except.ok (arts.filter
          (fun a => a.articulo_id_interno == normalizar_numero_articulo (some q))) ∧
      ∀ a ∈ arts.filter (fun a => a.articulo_id_interno == normalizar_numero_articulo (some q)),
        a.nota_busqueda = none) ∧
    ((arts.filter (fun a => a.articulo_id_interno == normalizar_numero_articulo (some q))) = [] →
      (arts.filter (fun a =>
        (pyStrip q.data).map minusculaPy == (pyStrip a.articulo_display.data).map minusculaPy)) ≠ [] →
      (buscar_articulo_avanzado arts q).2 =
        Except.ok ((arts.filter (fun a =>
          (pyStrip q.data).map minusculaPy == (pyStrip a.articulo_display.data).map minusculaPy)).map
            (fun a => { a with nota_busqueda := some "Búsqueda por display exacto" })) ∧
      ∀ a ∈ (arts.filter (fun a =>
          (pyStrip q.data).map minusculaPy == (pyStrip a.articulo_display.data).map minusculaPy)).map
            (fun a => { a with nota_busqueda := some "Búsqueda por display exacto" }),
        a.nota_busqueda = some "Búsqueda por display exacto") := by
  constructor
  · intro h
    refine ⟨?_, fun a ha => hnotas a (List.mem_of_mem_filter ha)⟩
    have hne : (arts.filter
        (fun a => a.articulo_id_interno == normalizar_numero_articulo (some q))).isEmpty = false :=
      Bool.eq_false_iff.mpr (fun hE => h (List.isEmpty_iff.mp hE))
    simp [buscar_articulo_avanzado, hne]
  · intro h1 h2
    have hE1 : (arts.filter
        (fun a => a.articulo_id_interno == normalizar_numero_articulo (some q))).isEmpty = true :=
      List.isEmpty_iff.mpr h1
    have hne2 : (arts.filter (fun a =>
        (pyStrip q.data).map minusculaPy ==
          (pyStrip a.articulo_display.data).map minusculaPy)).isEmpty = false :=
      Bool.eq_false_iff.mpr (fun hE => h2 (List.isEmpty_iff.mp hE))
    constructor
    · simp [buscar_articulo_avanzado, hE1, buscar_paso2, hne2]
    · intro a ha
      rcases List.mem_map.mp ha with ⟨b, _, rfl⟩
      rfl

def articuloC5 : Articulo := ⟨"Artículo 15", "15", "x", [], none, none⟩

/-- C5 witness: the theorem applied to a concrete one-record list and the
query `"15"`, which matches by internal id. -/
theorem C5_witness :
    (buscar_articulo_avanzado [articuloC5] "15").2 = Except.ok [articuloC5] := by
  have h := ((C5_resolutor_capas [articuloC5] "15" (by decide)).1 (by decide)).1
  have he : [articuloC5].filter
      (fun a => a.articulo_id_interno == normalizar_numero_articulo (some "15")) = [articuloC5] := by
    decide
  rw [he] at h
  exact h

/-! ## C9 — the resolver mutates its input -/

def articulosC9 : List Articulo := [⟨"Hello World", "1", "t", [], none, none⟩]

/-- C9 counterexample: the resolver does mutate its input.  A display-exact
match sets `nota_busqueda` on the matched input records in place, so the
input list's state after the call differs from its state before. -/
theorem C9_counterexample :
    ¬ (∀ (arts : List Articulo) (q : String), (buscar_articulo_avanzado arts q).1 = arts) := by
  intro h
  exact absurd (h articulosC9 "hello world") (by decide)

/-- C9 amended: the resolver leaves the input list untouched on the exact
canonical-id path (strategy 1); the non-exact strategies set `search_note`
on the matched input records in place. -/
theorem C9_amended (arts : List Articulo) (q : String)
    (h : (arts.filter (fun a => a.articulo_id_interno == normalizar_numero_articulo (some q))) ≠ []) :
    (buscar_articulo_avanzado arts q).1 = arts := by
  have hne : (arts.filter
      (fun a => a.articulo_id_interno == normalizar_numero_articulo (some q))).isEmpty = false :=
    Bool.eq_false_iff.mpr (fun hE => h (List.isEmpty_iff.mp hE))
  simp [buscar_articulo_avanzado, hne]

def articuloC9 : Articulo := ⟨"Artículo 15", "15", "x", [], none, none⟩

/-- C9 witness: the amended theorem applied to a concrete exact-id lookup. -/
theorem C9_witness : (buscar_articulo_avanzado [articuloC9] "15").1 = [articuloC9] :=
  C9_amended [articuloC9] "15" (by decide)

/-! ## C3 — sentinel queries vs. not-found -/

deriving instance DecidableEq for Except

/-- A client-input failure distinguishable from the 404 not-found diagnostic
would have to carry a status code other than 404, the only machine-readable
discriminator on the raised `HTTPException`. -/
def es_error_de_cliente (r : Except ErrorHTTP (List Articulo)) : Bool :=
  match r with
  | Except.error e => e.status_code != 404
  | Except.ok _ => false

def articulosC3 : List Articulo := [⟨"Artículo 1", "1", "texto x", [], some "100", none⟩]

/-- C3 counterexample: a query normalizing to the error sentinel is not
reported as a distinguishable client-input error.  The query `"..."`
normalizes to `"s/n_error_normalizacion"`, yet the resolver reports it
through the same status-404 not-found exception (built by the same code
path, lines 379-393) as any valid-but-absent query. -/
theorem C3_counterexample :
    ¬ (∀ (arts : List Articulo) (q : String),
        normalizar_numero_articulo (some q) = "s/n_error_normalizacion" →
        es_error_de_cliente (buscar_articulo_avanzado arts q).2 = true) := by
  intro h
  have h1 := h articulosC3 "..." (by decide)
  revert h1
  set_option maxRecDepth 8000 in decide

theorem paso5_estado_404 (arts : List Articulo) (q n : String) (abls : List Char)
    (e : ErrorHTTP) (h : (buscar_paso5 arts q n abls).2 = Except.error e) :
    e.status_code = 404 := by
  simp only [buscar_paso5] at h
  have he := (Except.error.injEq _ _).mp h.symm
  rw [he]

theorem paso4_estado_404 (arts : List Articulo) (q n : String) (abls : List Char)
    (e : ErrorHTTP) (h : (buscar_paso4 arts q n abls).2 = Except.error e) :
    e.status_code = 404 := by
  simp only [buscar_paso4] at h
  split at h
  · simp at h
  · exact paso5_estado_404 _ _ _ _ _ h

theorem paso3_estado_404 (arts : List Articulo) (q n : String) (abls : List Char)
    (e : ErrorHTTP) (h : (buscar_paso3 arts q n abls).2 = Except.error e) :
    e.status_code = 404 := by
  simp only [buscar_paso3] at h
  split at h
  · split at h
    · simp at h
    · exact paso4_estado_404 _ _ _ _ _ h
  · exact paso4_estado_404 _ _ _ _ _ h

theorem paso2_estado_404 (arts : List Articulo) (q n : String)
    (e : ErrorHTTP) (h : (buscar_paso2 arts q n).2 = Except.error e) :
    e.status_code = 404 := by
  simp only [buscar_paso2] at h
  split at h
  · simp at h
  · exact paso3_estado_404 _ _ _ _ _ h

/-- C3 amended: the resolver has a single failure shape.  Whatever the query
— one that normalizes to the error sentinel or a valid-but-absent one —
every failure it reports is the status-404 not-found diagnostic; the
sentinel shows up only inside the diagnostic's message text (and a
sentinel-normalizing query may even succeed through the display, positional
or textual strategies). -/
theorem C3_amended (arts : List Articulo) (q : String) (e : ErrorHTTP)
    (h : (buscar_articulo_avanzado arts q).2 = Except.error e) :
    e.status_code = 404 := by
  simp only [buscar_articulo_avanzado] at h
  split at h
  · simp at h
  · exact paso2_estado_404 _ _ _ _ h

def errorC3 : ErrorHTTP :=
  ⟨404, ⟨"Artículo \x27...\x27 (buscado como \x27s/n_error_normalizacion\x27) no encontrado.",
        "No se encontraron coincidencias cercanas.", [], ["1"], ["Artículo 1"]⟩⟩

/-- C3 witness: the amended theorem applied to the concrete diagnostic the
resolver produces for the sentinel-normalizing query `"..."`. -/
theorem C3_witness : errorC3.status_code = 404 :=
  C3_amended articulosC3 "..." errorC3 (by set_option maxRecDepth 8000 in decide)

/-! ## C6 — no length filter in the reference extractor -/

/-- C6 counterexample: the extractor applies no noise filter.  The text
`"DFN1"` itself matches the decree-with-force-of-law alternative of the
citation pattern, and the resulting reference `"DFN1"` has length 4 ≤ 5. -/
theorem C6_counterexample :
    ¬ (∀ (texto : String), ∀ r ∈ extraer_referencias_legales texto, 5 < r.data.length) := by
  intro h
  exact absurd (h "DFN1" "DFN1" (by decide)) (by decide)

/-- Membership is preserved by `conjuntoListaFuel` when the fuel covers the
list's length. -/
theorem mem_conjuntoListaFuel (f : Nat) (xs : List String) (hf : xs.length ≤ f)
    (a : String) (ha : a ∈ xs) : a ∈ conjuntoListaFuel f xs := by
  induction f generalizing xs with
  | zero =>
    rw [List.eq_nil_of_length_eq_zero (Nat.le_zero.mp hf)] at ha
    cases ha
  | succ f ih =>
    match xs, ha with
    | x :: xs', ha =>
      rw [conjuntoListaFuel]
      by_cases hax : a = x
      · exact hax ▸ List.mem_cons_self _ _
      · rcases List.mem_cons.mp ha with h | hmem
        · exact absurd h hax
        · refine List.mem_cons_of_mem _ (ih _ ?_ ?_)
          · exact le_trans (List.length_filter_le _ _)
              (Nat.le_of_succ_le_succ (by simpa using hf))
          · exact List.mem_filter.mpr ⟨hmem, by simp [hax]⟩

/-- Membership is preserved by the model of `list(set(·))`. -/
theorem mem_conjuntoLista (xs : List String) (a : String) (ha : a ∈ xs) :
    a ∈ conjuntoLista xs :=
  mem_conjuntoListaFuel xs.length xs (Nat.le_refl _) a ha

/-- C6 amended: the extractor discards nothing.  Every match of the citation
pattern appears (cleaned by `limpiar_texto`) in the result set, whatever its
length — there is no `> 5` noise filter in the code. -/
theorem C6_amended (texto : String) (m : List Char)
    (hm : m ∈ findallRefs texto.data.length none texto.data) :
    limpiar_texto (String.mk m) ∈ extraer_referencias_legales texto := by
  unfold extraer_referencias_legales
  exact mem_conjuntoLista _ _ (List.mem_map_of_mem _ hm)

/-- C6 witness: the amended theorem applied to the concrete match `"DFN1"`
(a reference of length 4, which a `> 5` filter would have discarded). -/
theorem C6_witness : ("DFN1" : String) ∈ extraer_referencias_legales "DFN1" := by
  have h := C6_amended "DFN1" "DFN1".data (by decide)
  have he : limpiar_texto (String.mk "DFN1".data) = "DFN1" := by decide
  rw [he] at h
  exact h
